import Mathlib

/-!
Verification development for the geospatial analytics backend
(UIDAI-Data-Hack-Backend).  The repository's core pieces are shallowly
embedded here:

* a JSON value model together with an executable parser standing in for
  the runtime's JSON.parse (strings are untrusted store output);
* the geometry sanitizer `safeParseGeometry`, timestamp normalizer
  `safeISOString` and header extractor `extractTokenFromHeader`
  (src/common/utils/geojson.utils.ts, src/auth/supabase-jwt.util.ts);
* the dual-algorithm token verifier `verifySupabaseJwt`, with the
  jsonwebtoken library's verify call modelled by its observable outcome
  (signature validity per candidate key, expiry check, error classes);
* the three resource readers (migration flows, growth zones, digital
  risk) in their defensive form, and the naive (non-defensive) growth
  reader for the refinement comparison.

JavaScript nullable values are modelled with `Option`; ambient time
(Date.now / new Date) is threaded explicitly through a `Clock` value.
-/

/-- JSON values as produced by JSON.parse.  Numeric literals are kept as
their source text (the code under verification never computes with
numbers, only tests truthiness), and object fields keep their textual
order with the last duplicate winning on lookup, as in JavaScript. -/
inductive Json where
  | null
  | bool (b : Bool)
  | num (lit : String)
  | str (s : String)
  | arr (elems : List Json)
  | obj (fields : List (String × Json))

/-- JSON whitespace removal (space, tab, newline, carriage return). -/
def skipWs : List Char → List Char
  | c :: cs =>
    if c = ' ' ∨ c = '\t' ∨ c = '\n' ∨ c = '\r' then skipWs cs else c :: cs
  | [] => []

/-- Value of a hexadecimal digit character. -/
def hexVal (c : Char) : Option Nat :=
  if c.isDigit then some (c.toNat - '0'.toNat)
  else if 'a' ≤ c ∧ c ≤ 'f' then some (c.toNat - 'a'.toNat + 10)
  else if 'A' ≤ c ∧ c ≤ 'F' then some (c.toNat - 'A'.toNat + 10)
  else none

/-- Body of a JSON string after the opening quote: consumes characters up
to the closing quote, handling the escape sequences of the JSON grammar. -/
def parseStringBody : List Char → List Char → Option (String × List Char)
  | [], _ => none
  | c :: cs, acc =>
    if c = '"' then some (String.mk acc.reverse, cs)
    else if c = '\\' then
      match cs with
      | [] => none
      | e :: cs' =>
        if e = '"' then parseStringBody cs' ('"' :: acc)
        else if e = '\\' then parseStringBody cs' ('\\' :: acc)
        else if e = '/' then parseStringBody cs' ('/' :: acc)
        else if e = 'b' then parseStringBody cs' ('\x08' :: acc)
        else if e = 'f' then parseStringBody cs' ('\x0c' :: acc)
        else if e = 'n' then parseStringBody cs' ('\n' :: acc)
        else if e = 'r' then parseStringBody cs' ('\r' :: acc)
        else if e = 't' then parseStringBody cs' ('\t' :: acc)
        else if e = 'u' then
          match cs' with
          | a :: b :: c2 :: d :: rest =>
            match hexVal a, hexVal b, hexVal c2, hexVal d with
            | some ha, some hb, some hc, some hd =>
              parseStringBody rest
                (Char.ofNat (((ha * 16 + hb) * 16 + hc) * 16 + hd) :: acc)
            | _, _, _, _ => none
          | _ => none
        else none
    else if c.toNat < 32 then none
    else parseStringBody cs (c :: acc)

/-- Longest prefix of decimal digits, returned together with the rest. -/
def takeDigits : List Char → List Char × List Char
  | c :: cs =>
    if c.isDigit then
      let (ds, r) := takeDigits cs
      (c :: ds, r)
    else ([], c :: cs)
  | [] => ([], [])

/-- Optional fractional part of a JSON number (consumed characters, rest). -/
def parseFracPart : List Char → Option (List Char × List Char)
  | '.' :: cs =>
    match takeDigits cs with
    | ([], _) => none
    | (ds, r) => some ('.' :: ds, r)
  | cs => some ([], cs)

/-- Optional exponent part of a JSON number (consumed characters, rest). -/
def parseExpPart : List Char → Option (List Char × List Char)
  | c :: cs =>
    if c = 'e' ∨ c = 'E' then
      let (sgn, cs1) :=
        match cs with
        | '+' :: r => ([('+' : Char)], r)
        | '-' :: r => ([('-' : Char)], r)
        | _ => (([] : List Char), cs)
      match takeDigits cs1 with
      | ([], _) => none
      | (ds, r) => some (c :: (sgn ++ ds), r)
    else some ([], c :: cs)
  | [] => some ([], [])

/-- A JSON numeric literal (sign, integer part without leading zeros,
optional fraction and exponent), returned as its source text. -/
def parseNumberLit (cs : List Char) : Option (String × List Char) :=
  let (sign, cs1) :=
    match cs with
    | '-' :: r => ([('-' : Char)], r)
    | _ => (([] : List Char), cs)
  match cs1 with
  | [] => none
  | c :: r =>
    let intPart? : Option (List Char × List Char) :=
      if c = '0' then some (sign ++ [c], r)
      else if c.isDigit then
        let (ds, r2) := takeDigits r
        some (sign ++ c :: ds, r2)
      else none
    match intPart? with
    | none => none
    | some (ip, r2) =>
      match parseFracPart r2 with
      | none => none
      | some (fp, r3) =>
        match parseExpPart r3 with
        | none => none
        | some (ep, r4) => some (String.mk (ip ++ fp ++ ep), r4)

mutual

/-- One JSON value, fuel-bounded recursive descent. -/
def parseValue : Nat → List Char → Option (Json × List Char)
  | 0, _ => none
  | fuel + 1, cs =>
    match skipWs cs with
    | [] => none
    | 'n' :: 'u' :: 'l' :: 'l' :: r => some (.null, r)
    | 't' :: 'r' :: 'u' :: 'e' :: r => some (.bool true, r)
    | 'f' :: 'a' :: 'l' :: 's' :: 'e' :: r => some (.bool false, r)
    | '"' :: r =>
      match parseStringBody r [] with
      | some (s, r') => some (.str s, r')
      | none => none
    | '[' :: r =>
      match skipWs r with
      | ']' :: r' => some (.arr [], r')
      | r' =>
        match parseElems fuel r' with
        | some (vs, r'') => some (.arr vs, r'')
        | none => none
    | '\x7b' :: r =>
      match skipWs r with
      | '\x7d' :: r' => some (.obj [], r')
      | r' =>
        match parseMembers fuel r' with
        | some (ms, r'') => some (.obj ms, r'')
        | none => none
    | cs' =>
      match parseNumberLit cs' with
      | some (lit, r) => some (.num lit, r)
      | none => none

/-- Comma-separated array elements up to the closing bracket. -/
def parseElems : Nat → List Char → Option (List Json × List Char)
  | 0, _ => none
  | fuel + 1, cs =>
    match parseValue fuel cs with
    | none => none
    | some (v, r) =>
      match skipWs r with
      | ',' :: r' =>
        match parseElems fuel r' with
        | some (vs, r'') => some (v :: vs, r'')
        | none => none
      | ']' :: r' => some ([v], r')
      | _ => none

/-- Comma-separated object members up to the closing brace. -/
def parseMembers : Nat → List Char → Option (List (String × Json) × List Char)
  | 0, _ => none
  | fuel + 1, cs =>
    match skipWs cs with
    | '"' :: r =>
      match parseStringBody r [] with
      | none => none
      | some (key, r1) =>
        match skipWs r1 with
        | ':' :: r2 =>
          match parseValue fuel r2 with
          | none => none
          | some (v, r3) =>
            match skipWs r3 with
            | ',' :: r4 =>
              match parseMembers fuel r4 with
              | some (ms, r5) => some ((key, v) :: ms, r5)
              | none => none
            | '\x7d' :: r4 => some ([(key, v)], r4)
            | _ => none
        | _ => none
    | _ => none

end

/-- Model of the runtime's JSON.parse: parses one JSON value and requires
the whole input to be consumed (up to trailing whitespace); `none` stands
for the thrown SyntaxError. -/
def jsonParse (s : String) : Option Json :=
  match parseValue (2 * s.length + 2) s.data with
  | some (j, rest) => if (skipWs rest).isEmpty then some j else none
  | none => none

/-- Last-occurrence field lookup, matching the way JSON.parse builds a
JavaScript object (a duplicated key keeps its last value). -/
def lookupLast : List (String × Json) → String → Option Json
  | [], _ => none
  | (k, v) :: rest, key =>
    match lookupLast rest key with
    | some v' => some v'
    | none => if k = key then some v else none

/-- Property access `j.key` on a parsed JSON value; `none` models the
JavaScript `undefined` obtained on non-objects or absent fields. -/
def getField (j : Json) (key : String) : Option Json :=
  match j with
  | .obj fields => lookupLast fields key
  | _ => none

/-- Whether the mantissa of a JSON numeric literal is zero (so the number
is falsy in JavaScript): every digit before the exponent marker is 0. -/
def numLitIsZero (lit : String) : Bool :=
  ((lit.data.takeWhile (fun c => c ≠ 'e' ∧ c ≠ 'E')).filter Char.isDigit).all
    (· = '0')

/-- JavaScript truthiness of a parsed JSON value: null, false, zero and
the empty string are falsy; arrays and objects are always truthy. -/
def jsTruthy : Json → Bool
  | .null => false
  | .bool b => b
  | .num lit => !(numLitIsZero lit)
  | .str s => s ≠ ""
  | .arr _ => true
  | .obj _ => true

/-- Whether `typeof v === 'object'` holds for a parsed JSON value: true
for null, arrays and objects; false for booleans, numbers and strings. -/
def jsTypeofObject : Json → Bool
  | .null => true
  | .arr _ => true
  | .obj _ => true
  | _ => false

/-- Truthiness of a possibly-undefined value (`undefined` is falsy). -/
def truthyOpt : Option Json → Bool
  | none => false
  | some j => jsTruthy j

/-- Truthiness of a possibly-absent string (absent and empty are falsy). -/
def truthyStrOpt : Option String → Bool
  | none => false
  | some s => s ≠ ""

/-- Embedding of safeParseGeometry (src/common/utils/geojson.utils.ts):
rejects absent or empty input, input that fails to parse as JSON, parsed
values that are falsy or not of object type, and objects whose `type` or
`coordinates` field is absent or falsy; otherwise returns the parsed
value unchanged.  The try/catch of the source is the `none` branch of
`jsonParse`, so no input can make the function fail. -/
def safeParseGeometry (geojsonString : Option String) : Option Json :=
  match geojsonString with
  | none => none
  | some s =>
    if s = "" then none
    else
      match jsonParse s with
      | none => none
      | some parsed =>
        if !(jsTruthy parsed) || !(jsTypeofObject parsed) then none
        else if !(truthyOpt (getField parsed "type")) ||
            !(truthyOpt (getField parsed "coordinates")) then none
        else some parsed

/-- Observable outcome of converting a stored timestamp to an ISO string:
the value is absent (null/undefined), converts to a canonical ISO string,
or is an invalid date whose toISOString call throws. -/
inductive DateVal where
  | missing
  | valid (iso : String)
  | invalid
deriving DecidableEq

/-- Embedding of safeISOString (src/common/utils/geojson.utils.ts): an
absent date and a failed conversion both fall back to the current time,
passed in explicitly as `nowIso`. -/
def safeISOString (date : DateVal) (nowIso : String) : String :=
  match date with
  | .missing => nowIso
  | .valid iso => iso
  | .invalid => nowIso

/-- Split of a character list at every occurrence of a separator, the
semantics of JavaScript's String.prototype.split with a one-character
separator: the result is never empty, and consecutive separators produce
empty segments. -/
def splitChars (sep : Char) : List Char → List (List Char)
  | [] => [[]]
  | c :: cs =>
    let rest := splitChars sep cs
    if c = sep then [] :: rest
    else
      match rest with
      | r :: rs => (c :: r) :: rs
      | [] => [[c]]

/-- JavaScript `s.split(sep)` for a one-character separator. -/
def jsSplit (s : String) (sep : Char) : List String :=
  (splitChars sep s.data).map String.mk

/-- Embedding of extractTokenFromHeader (src/auth/supabase-jwt.util.ts):
splits the header on single spaces and destructures the first two
segments; absent header, empty header, a first segment other than
`Bearer`, or an absent/empty second segment yield null.  Note the source
never looks past the second segment. -/
def extractTokenFromHeader (authHeader : Option String) : Option String :=
  match authHeader with
  | none => none
  | some h =>
    if h = "" then none
    else
      match jsSplit h ' ' with
      | ty :: tokenPart :: _ =>
        if ty = "Bearer" ∧ tokenPart ≠ "" then some tokenPart else none
      | _ => none

/-- Decoded JWT header fields read by the verifier. -/
structure JwtHeader where
  alg : Option String
  kid : Option String
deriving DecidableEq

/-- Decoded JWT payload claims read by the verifier. -/
structure JwtPayload where
  sub : Option String
  email : Option String
  iat : Option Int
  exp : Option Int
deriving DecidableEq

/-- A compact token as seen through the jsonwebtoken library: the raw
string (only its emptiness is observed), the outcome of the unverified
header decode, the payload, and the outcome of signature verification
under each candidate key the code may select (the shared secret as raw
bytes, the shared secret base64-decoded, and the JWKS public key for the
header's kid), together with whether the JWKS key fetch resolves. -/
structure Token where
  raw : String
  header : Option JwtHeader
  payload : JwtPayload
  sigValidRawSecret : Bool
  sigValidB64Secret : Bool
  sigValidJwksKey : Bool
  jwksKeyFetchOk : Bool
deriving DecidableEq

/-- User identity extracted from a verified token
(src/auth/interfaces/auth.interface.ts). -/
structure AuthenticatedUser where
  sub : Option String
  email : Option String
  iat : Option Int
  exp : Option Int
deriving DecidableEq

/-- Result shape of verifySupabaseJwt (src/auth/supabase-jwt.util.ts). -/
structure JwtVerificationResult where
  valid : Bool
  user : Option AuthenticatedUser
  error : Option String
deriving DecidableEq

/-- Error classes thrown by the jsonwebtoken verify call that the source
distinguishes: TokenExpiredError and the general JsonWebTokenError. -/
inductive VerifyError where
  | expired
  | invalidToken
deriving DecidableEq

/-- Model of jwt.verify(token, key, \x7b algorithms: [pinned] \x7d): the
signature must verify under the given key with the header algorithm equal
to the single pinned algorithm, then the exp claim (when present) must be
in the future; a valid signature with a passed exp raises
TokenExpiredError, every other failure raises JsonWebTokenError. -/
def jwtVerify (alg : Option String) (pinned : String) (sigValid : Bool)
    (payload : JwtPayload) (now : Int) : Except VerifyError JwtPayload :=
  if alg ≠ some pinned ∨ sigValid = false then .error .invalidToken
  else
    match payload.exp with
    | some e => if e ≤ now then .error .expired else .ok payload
    | none => .ok payload

/-- Success path of verifySupabaseJwt after jwt.verify returns a payload:
build the user record and reject an absent or empty sub claim. -/
def extractUser (decoded : JwtPayload) : JwtVerificationResult :=
  let user : AuthenticatedUser :=
    { sub := decoded.sub, email := decoded.email
      iat := decoded.iat, exp := decoded.exp }
  if truthyStrOpt user.sub = false then
    { valid := false, user := none
      error := some "Token missing subject (sub) claim" }
  else { valid := true, user := some user, error := none }

/-- Template string for the unsupported-algorithm error: an undefined alg
header field prints as the string "undefined". -/
def algToString : Option String → String
  | some a => a
  | none => "undefined"

/-- Embedding of verifySupabaseJwt (src/auth/supabase-jwt.util.ts).  The
branch structure follows the source: empty token, undecodable header,
the ES256/JWKS branch guarded by `alg === 'ES256' && kid && supabaseUrl`
(a failed key fetch is an error of neither jwt error class, so it falls
to the catch-all message), the HS256 branch guarded by `alg === 'HS256'`
whose inner catch retries with the base64-decoded secret on ANY failure
of the raw-secret attempt, and the unsupported-algorithm fallthrough.
The outer catch maps TokenExpiredError to 'Token has expired' and
JsonWebTokenError to 'Invalid token'.  `now` is the verification time in
unix seconds. -/
def verifySupabaseJwt (token : Token) (secret : String)
    (supabaseUrl : Option String) (now : Int) : JwtVerificationResult :=
  if token.raw = "" then
    { valid := false, user := none, error := some "No token provided" }
  else
    match token.header with
    | none =>
      { valid := false, user := none, error := some "Invalid token format" }
    | some h =>
      if h.alg = some "ES256" ∧ truthyStrOpt h.kid = true ∧
          truthyStrOpt supabaseUrl = true then
        if token.jwksKeyFetchOk = false then
          { valid := false, user := none
            error := some "Token verification failed" }
        else
          match jwtVerify h.alg "ES256" token.sigValidJwksKey token.payload
              now with
          | .ok decoded => extractUser decoded
          | .error .expired =>
            { valid := false, user := none
              error := some "Token has expired" }
          | .error .invalidToken =>
            { valid := false, user := none, error := some "Invalid token" }
      else if h.alg = some "HS256" then
        if secret = "" then
          { valid := false, user := none
            error := some "JWT secret not configured" }
        else
          match jwtVerify h.alg "HS256" token.sigValidRawSecret token.payload
              now with
          | .ok decoded => extractUser decoded
          | .error _ =>
            match jwtVerify h.alg "HS256" token.sigValidB64Secret
                token.payload now with
            | .ok decoded => extractUser decoded
            | .error .expired =>
              { valid := false, user := none
                error := some "Token has expired" }
            | .error .invalidToken =>
              { valid := false, user := none, error := some "Invalid token" }
      else
        { valid := false, user := none
          error := some ("Unsupported algorithm: " ++ algToString h.alg) }

/-- Whether the token's exp claim is still in the future (or absent) at
the given verification time. -/
def notExpired (payload : JwtPayload) (now : Int) : Bool :=
  match payload.exp with
  | some e => now < e
  | none => true

/-- Ambient time as observed by the services: the current ISO timestamp
(used by safeISOString's fallback) and the current year (used by the
migration reader's `new Date().getFullYear()` default). -/
structure Clock where
  nowIso : String
  currentYear : Int
deriving DecidableEq

/-- A GeoJSON feature: the constant `type: "Feature"` tag of the source
is omitted since it carries no information. -/
structure Feature (P : Type) where
  geometry : Json
  properties : P

/-- A GeoJSON feature collection; the constant `type: "FeatureCollection"`
tag is likewise omitted. -/
structure FeatureCollection (P : Type) where
  features : List (Feature P)

/-- Embedding of emptyFeatureCollection
(src/common/utils/geojson.utils.ts). -/
def emptyFeatureCollection (P : Type) : FeatureCollection P :=
  { features := [] }

/-- A row of the growth_zones query as delivered by the driver; `Option`
models fields that may come back null. -/
structure GrowthZoneRow where
  id : Option String
  region_name : Option String
  growth_score : Option Rat
  classification : Option String
  created_at : DateVal
  geojson : Option String

/-- Properties of a growth-zone feature.  Fields are `Option`-typed to
model JavaScript values that may be null: the defensive reader always
fills them (with defaults), the naive reader passes row values through. -/
structure GrowthProps where
  id : Option String
  region_name : Option String
  growth_score : Option Rat
  classification : Option String
  created_at : String

/-- Property construction of the defensive GrowthService.getGrowthZones:
every missing scalar is defaulted (id to '', region_name to 'Unknown',
growth_score to 0, classification to 'rural') and created_at is
normalized through safeISOString. -/
def growthProps (clock : Clock) (row : GrowthZoneRow) : GrowthProps :=
  { id := some (row.id.getD "")
    region_name := some (row.region_name.getD "Unknown")
    growth_score := some (row.growth_score.getD 0)
    classification := some (row.classification.getD "rural")
    created_at := safeISOString row.created_at clock.nowIso }

/-- Row loop of the defensive GrowthService.getGrowthZones: features of
the rows whose geometry sanitizes, in row order, together with the
skippedCount the loop accumulates for its log line. -/
def growthLoop (clock : Clock) :
    List GrowthZoneRow → List (Feature GrowthProps) × Nat
  | [] => ([], 0)
  | row :: rest =>
    match safeParseGeometry row.geojson with
    | none =>
      let (fs, sk) := growthLoop clock rest
      (fs, sk + 1)
    | some g =>
      let (fs, sk) := growthLoop clock rest
      ({ geometry := g, properties := growthProps clock row } :: fs, sk)

/-- Embedding of the defensive GrowthService.getGrowthZones, from the
store result on: an empty result returns the canonical empty collection
directly, otherwise the row loop assembles the features.  Failures of the
query itself (the only throwing operation) happen before this point. -/
def getGrowthZones (clock : Clock) (rows : List GrowthZoneRow) :
    FeatureCollection GrowthProps :=
  if rows.isEmpty then emptyFeatureCollection GrowthProps
  else { features := (growthLoop clock rows).1 }

/-- A row of the digital_risk query as delivered by the driver. -/
structure DigitalRiskRow where
  id : Option String
  region_name : Option String
  risk_score : Option Rat
  risk_level : Option String
  factors : Option (List (String × Rat))
  created_at : DateVal
  geojson : Option String

/-- Properties of a digital-risk feature. -/
structure DigitalRiskProps where
  id : Option String
  region_name : Option String
  risk_score : Option Rat
  risk_level : Option String
  factors : Option (List (String × Rat))
  created_at : String

/-- Property construction of the defensive
DigitalRiskService.getDigitalRiskZones: defaults are id '', region_name
'Unknown', risk_score 0, risk_level 'low' and factors the empty map. -/
def digitalRiskProps (clock : Clock) (row : DigitalRiskRow) :
    DigitalRiskProps :=
  { id := some (row.id.getD "")
    region_name := some (row.region_name.getD "Unknown")
    risk_score := some (row.risk_score.getD 0)
    risk_level := some (row.risk_level.getD "low")
    factors := some (row.factors.getD [])
    created_at := safeISOString row.created_at clock.nowIso }

/-- Row loop of the defensive DigitalRiskService.getDigitalRiskZones. -/
def digitalRiskLoop (clock : Clock) :
    List DigitalRiskRow → List (Feature DigitalRiskProps) × Nat
  | [] => ([], 0)
  | row :: rest =>
    match safeParseGeometry row.geojson with
    | none =>
      let (fs, sk) := digitalRiskLoop clock rest
      (fs, sk + 1)
    | some g =>
      let (fs, sk) := digitalRiskLoop clock rest
      ({ geometry := g, properties := digitalRiskProps clock row } :: fs, sk)

/-- Embedding of the defensive DigitalRiskService.getDigitalRiskZones,
from the store result on. -/
def getDigitalRiskZones (clock : Clock) (rows : List DigitalRiskRow) :
    FeatureCollection DigitalRiskProps :=
  if rows.isEmpty then emptyFeatureCollection DigitalRiskProps
  else { features := (digitalRiskLoop clock rows).1 }

/-- A row of the migration_flows query as delivered by the driver. -/
structure MigrationFlowRow where
  id : Option String
  origin_region : Option String
  destination_region : Option String
  migration_score : Option Rat
  year : Option Int
  created_at : DateVal
  geojson : Option String

/-- Properties of a migration-flow feature. -/
structure MigrationProps where
  id : Option String
  origin_region : Option String
  destination_region : Option String
  migration_score : Option Rat
  year : Option Int
  created_at : String

/-- Property construction of the defensive
MigrationService.getMigrationFlows: a missing year is defaulted to the
current year, the other defaults follow the same pattern as the zones. -/
def migrationProps (clock : Clock) (row : MigrationFlowRow) :
    MigrationProps :=
  { id := some (row.id.getD "")
    origin_region := some (row.origin_region.getD "Unknown")
    destination_region := some (row.destination_region.getD "Unknown")
    migration_score := some (row.migration_score.getD 0)
    year := some (row.year.getD clock.currentYear)
    created_at := safeISOString row.created_at clock.nowIso }

/-- Row loop of the defensive MigrationService.getMigrationFlows. -/
def migrationLoop (clock : Clock) :
    List MigrationFlowRow → List (Feature MigrationProps) × Nat
  | [] => ([], 0)
  | row :: rest =>
    match safeParseGeometry row.geojson with
    | none =>
      let (fs, sk) := migrationLoop clock rest
      (fs, sk + 1)
    | some g =>
      let (fs, sk) := migrationLoop clock rest
      ({ geometry := g, properties := migrationProps clock row } :: fs, sk)

/-- Embedding of the defensive MigrationService.getMigrationFlows, from
the store result on. -/
def getMigrationFlows (clock : Clock) (rows : List MigrationFlowRow) :
    FeatureCollection MigrationProps :=
  if rows.isEmpty then emptyFeatureCollection MigrationProps
  else { features := (migrationLoop clock rows).1 }

/-- Left-to-right map that propagates the first thrown error, the shape
of Array.prototype.map over a callback that may throw. -/
def mapOrThrow (f : α → Except String β) : List α → Except String (List β)
  | [] => .ok []
  | a :: l =>
    match f a with
    | .error e => .error e
    | .ok b =>
      match mapOrThrow f l with
      | .error e => .error e
      | .ok bs => .ok (b :: bs)

/-- Per-row feature construction of the naive (non-defensive)
GrowthService.getGrowthZones (src/growth/growth.service.ts): JSON.parse
on the geometry text throws on unparseable input (a null geojson column
is coerced to the string "null", which parses to the JSON null), row
fields pass through unchecked, and created_at.toISOString() throws when
the value is null or an invalid date. -/
def growthFeatureNaive (row : GrowthZoneRow) :
    Except String (Feature GrowthProps) :=
  match (match row.geojson with
         | none => some Json.null
         | some s => jsonParse s) with
  | none => .error "JSON.parse failed"
  | some g =>
    match row.created_at with
    | .valid iso =>
      .ok { geometry := g
            properties :=
              { id := row.id, region_name := row.region_name
                growth_score := row.growth_score
                classification := row.classification, created_at := iso } }
    | _ => .error "toISOString failed"

/-- Embedding of the naive GrowthService.getGrowthZones: a straight map
over the rows, with any per-row throw caught by the service's catch and
turned into the generic retrieval failure. -/
def getGrowthZonesNaive (rows : List GrowthZoneRow) :
    Except String (FeatureCollection GrowthProps) :=
  match mapOrThrow growthFeatureNaive rows with
  | .ok fs => .ok { features := fs }
  | .error _ => .error "Failed to retrieve growth zone data"

/-- Helper: a truthy optional string is a present, non-empty string. -/
theorem truthyStrOpt_true {o : Option String} (h : truthyStrOpt o = true) :
    ∃ s, o = some s ∧ s ≠ "" := by
  cases o with
  | none => simp [truthyStrOpt] at h
  | some s => exact ⟨s, rfl, by simpa [truthyStrOpt] using h⟩

/-- Helper: jwt.verify succeeds when the pinned algorithm matches, the
signature is valid and the token is not expired. -/
theorem jwtVerify_ok {alg : Option String} {p : String} {sig : Bool}
    {payload : JwtPayload} {now : Int} (h1 : alg = some p) (h2 : sig = true)
    (h3 : notExpired payload now = true) :
    jwtVerify alg p sig payload now = .ok payload := by
  unfold jwtVerify
  rw [if_neg]
  · cases he : payload.exp with
    | none => simp
    | some e =>
      unfold notExpired at h3
      rw [he] at h3
      simp only [decide_eq_true_eq] at h3
      simp [show ¬ e ≤ now by omega]
  · rintro (ha | hs)
    · exact ha h1
    · rw [h2] at hs; cases hs

/-- Helper: jwt.verify raises JsonWebTokenError on an invalid signature. -/
theorem jwtVerify_sig_false {alg : Option String} {p : String}
    {payload : JwtPayload} {now : Int} :
    jwtVerify alg p false payload now = .error .invalidToken := by
  unfold jwtVerify
  rw [if_pos (Or.inr rfl)]

/-- Helper: jwt.verify raises TokenExpiredError on a valid signature with
a passed exp. -/
theorem jwtVerify_expired {alg : Option String} {p : String}
    {payload : JwtPayload} {now : Int} {e : Int} (h1 : alg = some p)
    (he : payload.exp = some e) (hle : e ≤ now) :
    jwtVerify alg p true payload now = .error .expired := by
  unfold jwtVerify
  rw [if_neg, he]
  · simp [hle]
  · rintro (ha | hs)
    · exact ha h1
    · cases hs

def tokenC1 : Token :=
  { raw := "header.payload.sig"
    header := some { alg := some "ES256", kid := some "key-2024" }
    payload := { sub := some "user-1", email := none, iat := none
                 exp := some 4102444800 }
    sigValidRawSecret := false, sigValidB64Secret := false
    sigValidJwksKey := true, jwksKeyFetchOk := true }

/-- C1 counterexample: an ES256 token with a kid, presented with no JWKS
endpoint configured, is rejected with the unsupported-algorithm reason
rather than a missing-configuration reason (the code's only
missing-configuration message is the HS256 secret one). -/
theorem C1_counterexample :
    verifySupabaseJwt tokenC1 "shared-secret" (some "") 0 =
      { valid := false, user := none
        error := some "Unsupported algorithm: ES256" } ∧
    some "Unsupported algorithm: ES256" ≠ some "JWT secret not configured" := by
  exact ⟨rfl, by decide⟩

/-- C1 amended: for every token whose header declares alg ES256 with a
kid, when verifySupabaseJwt is called with no configured JWKS endpoint
(supabaseUrl absent or empty) the verification fails closed with
valid:false and the reason string 'Unsupported algorithm: ES256' (the
UnsupportedAlgorithm class, not MissingConfiguration), and does not
crash: the function totally returns this result. -/
theorem C1_es256_without_endpoint (tok : Token) (secret : String)
    (url : Option String) (now : Int) (h : JwtHeader)
    (hraw : tok.raw ≠ "") (hhd : tok.header = some h)
    (halg : h.alg = some "ES256") (_hkid : truthyStrOpt h.kid = true)
    (hurl : truthyStrOpt url = false) :
    verifySupabaseJwt tok secret url now =
      { valid := false, user := none
        error := some "Unsupported algorithm: ES256" } := by
  simp only [verifySupabaseJwt, hhd]
  rw [if_neg hraw, if_neg (by simp [hurl]), if_neg (by simp [halg]), halg]
  rfl

/-- C1 witness: the amended theorem applied to a concrete ES256 token
with no configured endpoint. -/
theorem C1_witness :
    tokenC1.raw ≠ "" ∧
    verifySupabaseJwt tokenC1 "shared-secret" none 0 =
      { valid := false, user := none
        error := some "Unsupported algorithm: ES256" } :=
  ⟨by decide,
   C1_es256_without_endpoint tokenC1 "shared-secret" none 0
     { alg := some "ES256", kid := some "key-2024" } (by decide) rfl rfl
     (by decide) (by decide)⟩

def tokenC2hs : Token :=
  { raw := "header.payload.sig"
    header := some { alg := some "HS256", kid := none }
    payload := { sub := some "user-1", email := none, iat := some 50
                 exp := some 100 }
    sigValidRawSecret := true, sigValidB64Secret := false
    sigValidJwksKey := false, jwksKeyFetchOk := false }

def tokenC2es : Token :=
  { raw := "header.payload.sig"
    header := some { alg := some "ES256", kid := some "key-2024" }
    payload := { sub := some "user-1", email := none, iat := some 50
                 exp := some 100 }
    sigValidRawSecret := false, sigValidB64Secret := false
    sigValidJwksKey := true, jwksKeyFetchOk := true }

/-- C2 evaluation at the failing input: an expired HS256 token whose
signature is valid under the raw shared secret is reported as 'Invalid
token' instead of 'Token has expired', because the inner catch swallows
the TokenExpiredError of the raw attempt and the base64 retry's
signature failure masks the expiry.  The two companion evaluations show
that an expired ES256 token and an expired HS256 token signed with the
base64-decoded secret are classified 'Token has expired' as the claim
demands, so the divergence is specific to the raw-secret path. -/
theorem C2_expired_raw_hs256_misclassified :
    verifySupabaseJwt tokenC2hs "shared-secret" none 200 =
      { valid := false, user := none, error := some "Invalid token" } ∧
    verifySupabaseJwt tokenC2es "shared-secret" (some "https://proj.supabase.co")
        200 =
      { valid := false, user := none, error := some "Token has expired" } ∧
    verifySupabaseJwt
        { tokenC2hs with sigValidRawSecret := false, sigValidB64Secret := true }
        "shared-secret" none 200 =
      { valid := false, user := none, error := some "Token has expired" } :=
  ⟨rfl, rfl, rfl⟩

/-- C3: every unexpired HS256 token with a non-empty sub whose signature
is valid under the configured shared secret, interpreted either as raw
bytes or as base64-decoded bytes, verifies with valid:true and a user
whose sub equals the token's sub claim; moreover, when the raw-bytes
attempt succeeds the result does not depend on the base64
interpretation, which captures that the raw attempt is made first and
the base64 attempt happens only after the raw attempt fails. -/
theorem C3_hs256_valid_token_accepted (tok : Token) (secret : String)
    (url : Option String) (now : Int) (h : JwtHeader) (s : String)
    (hraw : tok.raw ≠ "") (hhd : tok.header = some h)
    (halg : h.alg = some "HS256") (hsec : secret ≠ "")
    (hsig : tok.sigValidRawSecret = true ∨ tok.sigValidB64Secret = true)
    (hexp : notExpired tok.payload now = true)
    (hsub : tok.payload.sub = some s) (hs : s ≠ "") :
    (verifySupabaseJwt tok secret url now).valid = true ∧
    (verifySupabaseJwt tok secret url now).user =
      some { sub := some s, email := tok.payload.email
             iat := tok.payload.iat, exp := tok.payload.exp } ∧
    (tok.sigValidRawSecret = true →
      ∀ b, verifySupabaseJwt { tok with sigValidB64Secret := b } secret url now
        = verifySupabaseJwt tok secret url now) := by
  have hmain : ∀ t : Token, t.header = some h → t.payload = tok.payload →
      t.raw = tok.raw → t.sigValidRawSecret = tok.sigValidRawSecret →
      (t.sigValidRawSecret = true ∨ t.sigValidB64Secret = true) →
      verifySupabaseJwt t secret url now =
        { valid := true
          user := some { sub := some s, email := tok.payload.email
                         iat := tok.payload.iat, exp := tok.payload.exp }
          error := none } := by
    intro t ht hp hr hsr hsg
    simp only [verifySupabaseJwt, ht]
    rw [if_neg (by rw [hr]; exact hraw), if_neg (by simp [halg]),
      if_pos halg, if_neg hsec]
    rcases hsg with h1 | h1
    · rw [hp, jwtVerify_ok halg h1 hexp]
      simp only [extractUser, hsub]
      rw [if_neg (by simp [truthyStrOpt, hs])]
    · rcases hb : t.sigValidRawSecret with _ | _
      · rw [hp, jwtVerify_sig_false, jwtVerify_ok halg h1 hexp]
        simp only [extractUser, hsub]
        rw [if_neg (by simp [truthyStrOpt, hs])]
      · rw [hp, jwtVerify_ok halg (rfl : (true : Bool) = true) hexp]
        simp only [extractUser, hsub]
        rw [if_neg (by simp [truthyStrOpt, hs])]
  have hbase := hmain tok hhd rfl rfl rfl hsig
  refine ⟨by rw [hbase], by rw [hbase], ?_⟩
  intro hr b
  rw [hbase, hmain { tok with sigValidB64Secret := b } hhd rfl rfl rfl
    (Or.inl hr)]

def tokenC3 : Token :=
  { raw := "header.payload.sig"
    header := some { alg := some "HS256", kid := none }
    payload := { sub := some "user-9", email := some "u9@example.com"
                 iat := some 10, exp := some 1000 }
    sigValidRawSecret := true, sigValidB64Secret := false
    sigValidJwksKey := false, jwksKeyFetchOk := false }

/-- C3 witness: the theorem applied to a concrete raw-secret-signed
token. -/
theorem C3_witness :
    (verifySupabaseJwt tokenC3 "shared-secret" none 20).valid = true ∧
    (verifySupabaseJwt tokenC3 "shared-secret" none 20).user =
      some { sub := some "user-9", email := tokenC3.payload.email
             iat := tokenC3.payload.iat, exp := tokenC3.payload.exp } ∧
    (tokenC3.sigValidRawSecret = true →
      ∀ b, verifySupabaseJwt { tokenC3 with sigValidB64Secret := b }
          "shared-secret" none 20
        = verifySupabaseJwt tokenC3 "shared-secret" none 20) :=
  C3_hs256_valid_token_accepted tokenC3 "shared-secret" none 20
    { alg := some "HS256", kid := none } "user-9" (by decide) rfl rfl
    (by decide) (Or.inl rfl) (by decide) rfl (by decide)

/-- C4 counterexample: the header 'Bearer a b' has an extra
space-separated segment, yet extractTokenFromHeader returns the second
segment 'a' rather than the null the claim demands. -/
theorem C4_counterexample :
    extractTokenFromHeader (some "Bearer a b") = some "a" ∧
    (some "a" : Option String) ≠ none := ⟨rfl, by decide⟩

/-- Helper: value of the extractor once the header splits into at least
two segments. -/
theorem extract_two_segments (s : String) (hs : s ≠ "") (a b : String)
    (rest : List String) (hp : jsSplit s ' ' = a :: b :: rest) :
    extractTokenFromHeader (some s) =
      if a = "Bearer" ∧ b ≠ "" then some b else none := by
  simp only [extractTokenFromHeader]
  rw [if_neg hs, hp]

/-- C4 amended: extractTokenFromHeader admits a credential exactly when
the header's first space-separated segment is 'Bearer' and the second
segment is non-empty, in which case the second segment is returned as
the token and any further segments are ignored; a missing or empty
header, a different scheme, or a missing or empty second segment yields
null. -/
theorem C4_extract_characterization (h : Option String) (t : String) :
    extractTokenFromHeader h = some t ↔
      ∃ s rest, h = some s ∧ jsSplit s ' ' = "Bearer" :: t :: rest ∧
        t ≠ "" := by
  cases h with
  | none => simp [extractTokenFromHeader]
  | some s =>
    by_cases hs : s = ""
    · subst hs
      constructor
      · intro h'
        rw [show extractTokenFromHeader (some "") = none from rfl] at h'
        cases h'
      · rintro ⟨s', rest, hs', hsplit, ht⟩
        obtain rfl : "" = s' := by injection hs'
        rw [show jsSplit "" ' ' = [""] from rfl] at hsplit
        simp at hsplit
    · rcases hp : jsSplit s ' ' with _ | ⟨a, _ | ⟨b, rest⟩⟩
      · constructor
        · intro h'
          simp only [extractTokenFromHeader, if_neg hs, hp] at h'
          cases h'
        · rintro ⟨s', rest', hs', hsplit, ht⟩
          obtain rfl : s = s' := by injection hs'
          rw [hp] at hsplit
          cases hsplit
      · constructor
        · intro h'
          simp only [extractTokenFromHeader, if_neg hs, hp] at h'
          cases h'
        · rintro ⟨s', rest', hs', hsplit, ht⟩
          obtain rfl : s = s' := by injection hs'
          rw [hp] at hsplit
          cases hsplit
      · rw [extract_two_segments s hs a b rest hp]
        by_cases hb : a = "Bearer" ∧ b ≠ ""
        · rw [if_pos hb]
          constructor
          · intro h'
            obtain rfl : b = t := by injection h'
            exact ⟨s, rest, rfl, by rw [hp, hb.1], hb.2⟩
          · rintro ⟨s', rest', hs', hsplit, ht⟩
            obtain rfl : s = s' := by injection hs'
            rw [hp] at hsplit
            injection hsplit with h1 h2
            injection h2 with h3 h4
            rw [h3]
        · rw [if_neg hb]
          constructor
          · intro h'; cases h'
          · rintro ⟨s', rest', hs', hsplit, ht⟩
            obtain rfl : s = s' := by injection hs'
            rw [hp] at hsplit
            injection hsplit with h1 h2
            injection h2 with h3 h4
            exact absurd ⟨h1, h3 ▸ ht⟩ hb

/-- C4 witness: the characterization applied to a well-formed header. -/
theorem C4_witness :
    extractTokenFromHeader (some "Bearer tok123") = some "tok123" :=
  (C4_extract_characterization (some "Bearer tok123") "tok123").mpr
    ⟨"Bearer tok123", [], rfl, rfl, by decide⟩

def sC5bad : String := "\x7b\"type\":0,\"coordinates\":[0]\x7d"

def jC5bad : Json :=
  Json.obj [("type", Json.num "0"), ("coordinates", Json.arr [Json.num "0"])]

/-- C5 counterexample: the string encoding the object with type 0 and
coordinates [0] parses to an object carrying both fields, yet
safeParseGeometry returns null because the type field is falsy, contrary
to the claim's round-trip clause. -/
theorem C5_counterexample :
    jsonParse sC5bad = some jC5bad ∧
    (getField jC5bad "type").isSome = true ∧
    (getField jC5bad "coordinates").isSome = true ∧
    safeParseGeometry (some sC5bad) = none := ⟨rfl, rfl, rfl, rfl⟩

/-- C5 amended: safeParseGeometry never fails and returns a geometry
exactly when the input string parses as JSON to a truthy value of object
type whose type and coordinates fields are both present and truthy, in
which case it returns the parsed value unchanged (round-trip); every
other input, including empty, null, undefined, unparseable, non-object,
or with absent or falsy type or coordinates fields, yields null. -/
theorem C5_sanitizer_characterization (o : Option String) (j : Json) :
    safeParseGeometry o = some j ↔
      ∃ s, o = some s ∧ jsonParse s = some j ∧ jsTruthy j = true ∧
        jsTypeofObject j = true ∧ truthyOpt (getField j "type") = true ∧
        truthyOpt (getField j "coordinates") = true := by
  constructor
  · intro h'
    cases o with
    | none => cases h'
    | some s =>
      by_cases hs : s = ""
      · rw [hs] at h'
        cases h'
      · simp only [safeParseGeometry, if_neg hs] at h'
        cases hj : jsonParse s with
        | none => rw [hj] at h'; cases h'
        | some parsed =>
          simp only [hj] at h'
          by_cases h1 : (!(jsTruthy parsed) || !(jsTypeofObject parsed)) = true
          · rw [if_pos h1] at h'; cases h'
          · rw [if_neg h1] at h'
            by_cases h2 : (!(truthyOpt (getField parsed "type")) ||
                !(truthyOpt (getField parsed "coordinates"))) = true
            · rw [if_pos h2] at h'; cases h'
            · rw [if_neg h2] at h'
              obtain rfl : parsed = j := by injection h'
              simp only [Bool.or_eq_true, Bool.not_eq_true', not_or,
                Bool.ne_false_iff] at h1 h2
              exact ⟨s, rfl, hj, h1.1, h1.2, h2.1, h2.2⟩
  · rintro ⟨s, rfl, hp, ht, hto, hty, hc⟩
    have hs : s ≠ "" := by
      intro h''
      subst h''
      rw [show jsonParse "" = none from rfl] at hp
      cases hp
    simp only [safeParseGeometry, if_neg hs, hp]
    rw [if_neg (by simp [ht, hto]), if_neg (by simp [hty, hc])]

def sC5good : String := "\x7b\"type\":\"Point\",\"coordinates\":[77.5,12.9]\x7d"

def jC5good : Json :=
  Json.obj [("type", Json.str "Point"),
            ("coordinates", Json.arr [Json.num "77.5", Json.num "12.9"])]

/-- C5 witness: a well-formed Point geometry survives unchanged. -/
theorem C5_witness :
    safeParseGeometry (some sC5good) = some jC5good :=
  (C5_sanitizer_characterization (some sC5good) jC5good).mpr
    ⟨sC5good, rfl, rfl, rfl, rfl, rfl, rfl⟩

/-- Per-row outcome of the growth assembler: the feature built from a
sanitizable geometry, or nothing for a dropped row. -/
def growthFeature (clock : Clock) (row : GrowthZoneRow) :
    Option (Feature GrowthProps) :=
  (safeParseGeometry row.geojson).map
    (fun g => { geometry := g, properties := growthProps clock row })

/-- Per-row outcome of the digital-risk assembler. -/
def digitalRiskFeature (clock : Clock) (row : DigitalRiskRow) :
    Option (Feature DigitalRiskProps) :=
  (safeParseGeometry row.geojson).map
    (fun g => { geometry := g, properties := digitalRiskProps clock row })

/-- Per-row outcome of the migration assembler. -/
def migrationFeature (clock : Clock) (row : MigrationFlowRow) :
    Option (Feature MigrationProps) :=
  (safeParseGeometry row.geojson).map
    (fun g => { geometry := g, properties := migrationProps clock row })

/-- Helper: the growth row loop emits exactly the features of sanitizable
rows in order, counts the dropped rows, and loses no row. -/
theorem growthLoop_spec (clock : Clock) (rows : List GrowthZoneRow) :
    (growthLoop clock rows).1 = rows.filterMap (growthFeature clock) ∧
    (growthLoop clock rows).2 =
      rows.countP (fun r => (safeParseGeometry r.geojson).isNone) ∧
    ((growthLoop clock rows).1).length + (growthLoop clock rows).2 =
      rows.length := by
  induction rows with
  | nil => simp [growthLoop]
  | cons row rest ih =>
    obtain ⟨ih1, ih2, ih3⟩ := ih
    cases hg : safeParseGeometry row.geojson with
    | none =>
      refine ⟨?_, ?_, ?_⟩
      · simp [growthLoop, hg, growthFeature, ih1]
      · simp [growthLoop, hg, List.countP_cons, ih2]
      · simp [growthLoop, hg]
        omega
    | some g =>
      refine ⟨?_, ?_, ?_⟩
      · simp [growthLoop, hg, growthFeature, ih1]
      · simp [growthLoop, hg, List.countP_cons, ih2]
      · simp [growthLoop, hg]
        omega

/-- Helper: the collection returned by the defensive growth reader is the
row loop's feature list, also for the empty-result early return. -/
theorem getGrowthZones_features (clock : Clock) (rows : List GrowthZoneRow) :
    (getGrowthZones clock rows).features = (growthLoop clock rows).1 := by
  cases rows with
  | nil => simp [getGrowthZones, emptyFeatureCollection, growthLoop]
  | cons row rest => simp [getGrowthZones]

/-- Helper: digital-risk analogue of growthLoop_spec. -/
theorem digitalRiskLoop_spec (clock : Clock) (rows : List DigitalRiskRow) :
    (digitalRiskLoop clock rows).1 =
      rows.filterMap (digitalRiskFeature clock) ∧
    (digitalRiskLoop clock rows).2 =
      rows.countP (fun r => (safeParseGeometry r.geojson).isNone) ∧
    ((digitalRiskLoop clock rows).1).length + (digitalRiskLoop clock rows).2 =
      rows.length := by
  induction rows with
  | nil => simp [digitalRiskLoop]
  | cons row rest ih =>
    obtain ⟨ih1, ih2, ih3⟩ := ih
    cases hg : safeParseGeometry row.geojson with
    | none =>
      refine ⟨?_, ?_, ?_⟩
      · simp [digitalRiskLoop, hg, digitalRiskFeature, ih1]
      · simp [digitalRiskLoop, hg, List.countP_cons, ih2]
      · simp [digitalRiskLoop, hg]
        omega
    | some g =>
      refine ⟨?_, ?_, ?_⟩
      · simp [digitalRiskLoop, hg, digitalRiskFeature, ih1]
      · simp [digitalRiskLoop, hg, List.countP_cons, ih2]
      · simp [digitalRiskLoop, hg]
        omega

/-- Helper: digital-risk analogue of getGrowthZones_features. -/
theorem getDigitalRiskZones_features (clock : Clock)
    (rows : List DigitalRiskRow) :
    (getDigitalRiskZones clock rows).features =
      (digitalRiskLoop clock rows).1 := by
  cases rows with
  | nil => simp [getDigitalRiskZones, emptyFeatureCollection, digitalRiskLoop]
  | cons row rest => simp [getDigitalRiskZones]

/-- C6: for every store result of N rows of which K fail geometry
sanitization, the growth and digital-risk assemblers emit exactly the
features of the sanitizable rows in store order (the filterMap
equations), hence N minus K features (the length equations), and the
loop's skip counter equals K; both assemblers are total functions of the
rows, so per-row geometry failures cannot fail the request. -/
theorem C6_assembler_feature_counts (clock : Clock)
    (grows : List GrowthZoneRow) (drows : List DigitalRiskRow) :
    (getGrowthZones clock grows).features =
      grows.filterMap (growthFeature clock) ∧
    (getGrowthZones clock grows).features.length =
      grows.length -
        grows.countP (fun r => (safeParseGeometry r.geojson).isNone) ∧
    (growthLoop clock grows).2 =
      grows.countP (fun r => (safeParseGeometry r.geojson).isNone) ∧
    (getDigitalRiskZones clock drows).features =
      drows.filterMap (digitalRiskFeature clock) ∧
    (getDigitalRiskZones clock drows).features.length =
      drows.length -
        drows.countP (fun r => (safeParseGeometry r.geojson).isNone) ∧
    (digitalRiskLoop clock drows).2 =
      drows.countP (fun r => (safeParseGeometry r.geojson).isNone) := by
  obtain ⟨g1, g2, g3⟩ := growthLoop_spec clock grows
  obtain ⟨d1, d2, d3⟩ := digitalRiskLoop_spec clock drows
  rw [getGrowthZones_features, getDigitalRiskZones_features]
  exact ⟨g1, by omega, g2, d1, by omega, d2⟩

/-- Helper: migration analogue of getGrowthZones_features. -/
theorem getMigrationFlows_features (clock : Clock)
    (rows : List MigrationFlowRow) :
    (getMigrationFlows clock rows).features = (migrationLoop clock rows).1 := by
  cases rows with
  | nil => simp [getMigrationFlows, emptyFeatureCollection, migrationLoop]
  | cons row rest => simp [getMigrationFlows]

/-- C7: a row with sanitizable geometry and all scalar property columns
missing produces a feature whose properties carry the defined defaults:
numeric scores (growth_score, risk_score, migration_score) default to 0,
classification to 'rural', risk_level to 'low', region names to the
'Unknown' placeholder (id to ''), factors to the empty mapping, and the
migration year to the current year. -/
theorem C7_missing_scalars_defaulted (clock : Clock) (g : Json)
    (grow : GrowthZoneRow) (drow : DigitalRiskRow) (mrow : MigrationFlowRow)
    (grest : List GrowthZoneRow) (drest : List DigitalRiskRow)
    (mrest : List MigrationFlowRow)
    (hgg : safeParseGeometry grow.geojson = some g)
    (hgid : grow.id = none) (hgrn : grow.region_name = none)
    (hgs : grow.growth_score = none) (hgc : grow.classification = none)
    (hdg : safeParseGeometry drow.geojson = some g)
    (hdid : drow.id = none) (hdrn : drow.region_name = none)
    (hds : drow.risk_score = none) (hdl : drow.risk_level = none)
    (hdf : drow.factors = none)
    (hmg : safeParseGeometry mrow.geojson = some g)
    (hmid : mrow.id = none) (hmo : mrow.origin_region = none)
    (hmd : mrow.destination_region = none) (hms : mrow.migration_score = none)
    (hmy : mrow.year = none) :
    (getGrowthZones clock (grow :: grest)).features.head? =
      some { geometry := g
             properties :=
               { id := some "", region_name := some "Unknown"
                 growth_score := some 0, classification := some "rural"
                 created_at := safeISOString grow.created_at clock.nowIso } } ∧
    (getDigitalRiskZones clock (drow :: drest)).features.head? =
      some { geometry := g
             properties :=
               { id := some "", region_name := some "Unknown"
                 risk_score := some 0, risk_level := some "low"
                 factors := some []
                 created_at := safeISOString drow.created_at clock.nowIso } } ∧
    (getMigrationFlows clock (mrow :: mrest)).features.head? =
      some { geometry := g
             properties :=
               { id := some "", origin_region := some "Unknown"
                 destination_region := some "Unknown"
                 migration_score := some 0, year := some clock.currentYear
                 created_at := safeISOString mrow.created_at
                   clock.nowIso } } := by
  refine ⟨?_, ?_, ?_⟩
  · rw [getGrowthZones_features]
    simp [growthLoop, hgg, growthProps, hgid, hgrn, hgs, hgc]
  · rw [getDigitalRiskZones_features]
    simp [digitalRiskLoop, hdg, digitalRiskProps, hdid, hdrn, hds, hdl, hdf]
  · rw [getMigrationFlows_features]
    simp [migrationLoop, hmg, migrationProps, hmid, hmo, hmd, hms, hmy]

def geoPolygonText : String :=
  "\x7b\"type\":\"Polygon\",\"coordinates\":[[[0,0],[0,1],[1,0],[0,0]]]\x7d"

def geoPolygonJson : Json :=
  Json.obj
    [("type", Json.str "Polygon"),
     ("coordinates",
      Json.arr
        [Json.arr
          [Json.arr [Json.num "0", Json.num "0"],
           Json.arr [Json.num "0", Json.num "1"],
           Json.arr [Json.num "1", Json.num "0"],
           Json.arr [Json.num "0", Json.num "0"]]])]

def growRowBare : GrowthZoneRow :=
  { id := none, region_name := none, growth_score := none
    classification := none, created_at := DateVal.valid "2024-05-01T00:00:00.000Z"
    geojson := some geoPolygonText }

def driskRowBare : DigitalRiskRow :=
  { id := none, region_name := none, risk_score := none, risk_level := none
    factors := none, created_at := DateVal.valid "2024-05-01T00:00:00.000Z"
    geojson := some geoPolygonText }

def migRowBare : MigrationFlowRow :=
  { id := none, origin_region := none, destination_region := none
    migration_score := none, year := none
    created_at := DateVal.valid "2024-05-01T00:00:00.000Z"
    geojson := some geoPolygonText }

def clockW : Clock :=
  { nowIso := "2026-02-03T04:05:06.000Z", currentYear := 2026 }

/-- C7 witness: the theorem applied to concrete all-null rows. -/
theorem C7_witness :
    (getGrowthZones clockW [growRowBare]).features.head? =
      some { geometry := geoPolygonJson
             properties :=
               { id := some "", region_name := some "Unknown"
                 growth_score := some 0, classification := some "rural"
                 created_at := safeISOString growRowBare.created_at
                   clockW.nowIso } } ∧
    (getDigitalRiskZones clockW [driskRowBare]).features.head? =
      some { geometry := geoPolygonJson
             properties :=
               { id := some "", region_name := some "Unknown"
                 risk_score := some 0, risk_level := some "low"
                 factors := some []
                 created_at := safeISOString driskRowBare.created_at
                   clockW.nowIso } } ∧
    (getMigrationFlows clockW [migRowBare]).features.head? =
      some { geometry := geoPolygonJson
             properties :=
               { id := some "", origin_region := some "Unknown"
                 destination_region := some "Unknown"
                 migration_score := some 0, year := some clockW.currentYear
                 created_at := safeISOString migRowBare.created_at
                   clockW.nowIso } } :=
  C7_missing_scalars_defaulted clockW geoPolygonJson growRowBare driskRowBare
    migRowBare [] [] [] rfl rfl rfl rfl rfl rfl rfl rfl rfl rfl rfl rfl rfl
    rfl rfl rfl rfl

def tokenC8 : Token :=
  { raw := "header.payload.sig"
    header := some { alg := some "HS256", kid := none }
    payload := { sub := none, email := none, iat := none, exp := none }
    sigValidRawSecret := false, sigValidB64Secret := false
    sigValidJwksKey := false, jwksKeyFetchOk := false }

/-- C8 counterexample: a decoded token with a missing sub whose
signature fails verification yields 'Invalid token', not the
MissingSubject reason the claim demands for every decoded token with an
empty or missing sub. -/
theorem C8_counterexample :
    verifySupabaseJwt tokenC8 "shared-secret" none 0 =
      { valid := false, user := none, error := some "Invalid token" } ∧
    some "Invalid token" ≠ some "Token missing subject (sub) claim" :=
  ⟨rfl, by decide⟩

/-- Helper: a valid extraction result carries a non-empty subject. -/
theorem extractUser_valid (d : JwtPayload)
    (h : (extractUser d).valid = true) :
    ∃ u s, (extractUser d).user = some u ∧ u.sub = some s ∧ s ≠ "" := by
  simp only [extractUser] at h ⊢
  by_cases ht : truthyStrOpt d.sub = false
  · rw [if_pos ht] at h; cases h
  · rw [if_neg ht]
    obtain ⟨s, hs, hne⟩ := truthyStrOpt_true (by
      cases hb : truthyStrOpt d.sub
      · exact absurd hb ht
      · rfl)
    exact ⟨_, s, rfl, hs, hne⟩

/-- C8 amended: whenever verifySupabaseJwt returns valid:true the result
carries a user whose sub is a present, non-empty string; and a token
that passes signature and expiry verification on the selected branch
(HS256 under the shared secret taken as raw bytes or base64-decoded, or
ES256 via JWKS) but has an empty or missing sub yields valid:false with
the MissingSubject reason. -/
theorem C8_subject_invariant :
    (∀ (tok : Token) (secret : String) (url : Option String) (now : Int),
       (verifySupabaseJwt tok secret url now).valid = true →
       ∃ u s, (verifySupabaseJwt tok secret url now).user = some u ∧
         u.sub = some s ∧ s ≠ "") ∧
    (∀ (tok : Token) (secret : String) (url : Option String) (now : Int)
       (h : JwtHeader), tok.raw ≠ "" → tok.header = some h →
       h.alg = some "HS256" → secret ≠ "" →
       (tok.sigValidRawSecret = true ∨ tok.sigValidB64Secret = true) →
       notExpired tok.payload now = true →
       truthyStrOpt tok.payload.sub = false →
       verifySupabaseJwt tok secret url now =
         { valid := false, user := none
           error := some "Token missing subject (sub) claim" }) ∧
    (∀ (tok : Token) (secret : String) (url : Option String) (now : Int)
       (h : JwtHeader), tok.raw ≠ "" → tok.header = some h →
       h.alg = some "ES256" → truthyStrOpt h.kid = true →
       truthyStrOpt url = true → tok.jwksKeyFetchOk = true →
       tok.sigValidJwksKey = true → notExpired tok.payload now = true →
       truthyStrOpt tok.payload.sub = false →
       verifySupabaseJwt tok secret url now =
         { valid := false, user := none
           error := some "Token missing subject (sub) claim" }) := by
  refine ⟨?_, ?_, ?_⟩
  · intro tok secret url now hv
    revert hv
    generalize hres : verifySupabaseJwt tok secret url now = res
    intro hv
    unfold verifySupabaseJwt at hres
    repeat' split at hres
    all_goals subst hres
    all_goals first
      | cases hv
      | exact extractUser_valid _ hv
  · intro tok secret url now h hraw hhd halg hsec hsig hexp hsub
    simp only [verifySupabaseJwt, hhd]
    rw [if_neg hraw, if_neg (by simp [halg]), if_pos halg, if_neg hsec]
    rcases hsig with h1 | h1
    · rw [jwtVerify_ok halg h1 hexp]
      simp only [extractUser]
      rw [if_pos hsub]
    · rcases hb : tok.sigValidRawSecret with _ | _
      · rw [jwtVerify_sig_false, jwtVerify_ok halg h1 hexp]
        simp only [extractUser]
        rw [if_pos hsub]
      · rw [jwtVerify_ok halg (rfl : (true : Bool) = true) hexp]
        simp only [extractUser]
        rw [if_pos hsub]
  · intro tok secret url now h hraw hhd halg hkid hurl hfetch hsig hexp hsub
    simp only [verifySupabaseJwt, hhd]
    rw [if_neg hraw, if_pos ⟨halg, hkid, hurl⟩,
      if_neg (by simp [hfetch]), jwtVerify_ok halg hsig hexp]
    simp only [extractUser]
    rw [if_pos hsub]

def tokenC8ok : Token :=
  { raw := "header.payload.sig"
    header := some { alg := some "HS256", kid := none }
    payload := { sub := some "user-11", email := none, iat := none
                 exp := some 900 }
    sigValidRawSecret := true, sigValidB64Secret := false
    sigValidJwksKey := false, jwksKeyFetchOk := false }

def tokenC8nosub : Token :=
  { raw := "header.payload.sig"
    header := some { alg := some "HS256", kid := none }
    payload := { sub := none, email := none, iat := none, exp := some 900 }
    sigValidRawSecret := true, sigValidB64Secret := false
    sigValidJwksKey := false, jwksKeyFetchOk := false }

def tokenC8nosubB64 : Token :=
  { raw := "header.payload.sig"
    header := some { alg := some "HS256", kid := none }
    payload := { sub := none, email := none, iat := none, exp := some 900 }
    sigValidRawSecret := false, sigValidB64Secret := true
    sigValidJwksKey := false, jwksKeyFetchOk := false }

def tokenC8nosubES : Token :=
  { raw := "header.payload.sig"
    header := some { alg := some "ES256", kid := some "key-2024" }
    payload := { sub := none, email := none, iat := none, exp := some 900 }
    sigValidRawSecret := false, sigValidB64Secret := false
    sigValidJwksKey := true, jwksKeyFetchOk := true }

/-- C8 witness: all conjuncts at concrete tokens — a valid token, a
no-sub token valid under the raw secret, one valid only under the
base64-decoded secret, and an ES256 no-sub token. -/
theorem C8_witness :
    (∃ u s,
      (verifySupabaseJwt tokenC8ok "shared-secret" none 10).user = some u ∧
        u.sub = some s ∧ s ≠ "") ∧
    verifySupabaseJwt tokenC8nosub "shared-secret" none 10 =
      { valid := false, user := none
        error := some "Token missing subject (sub) claim" } ∧
    verifySupabaseJwt tokenC8nosubB64 "shared-secret" none 10 =
      { valid := false, user := none
        error := some "Token missing subject (sub) claim" } ∧
    verifySupabaseJwt tokenC8nosubES "shared-secret"
        (some "https://proj.supabase.co") 10 =
      { valid := false, user := none
        error := some "Token missing subject (sub) claim" } :=
  ⟨C8_subject_invariant.1 tokenC8ok "shared-secret" none 10 rfl,
   C8_subject_invariant.2.1 tokenC8nosub "shared-secret" none 10
     { alg := some "HS256", kid := none } (by decide) rfl rfl (by decide)
     (Or.inl rfl) rfl rfl,
   C8_subject_invariant.2.1 tokenC8nosubB64 "shared-secret" none 10
     { alg := some "HS256", kid := none } (by decide) rfl rfl (by decide)
     (Or.inr rfl) rfl rfl,
   C8_subject_invariant.2.2 tokenC8nosubES "shared-secret"
     (some "https://proj.supabase.co") 10
     { alg := some "ES256", kid := some "key-2024" } (by decide) rfl rfl
     (by decide) (by decide) rfl rfl rfl rfl⟩

/-- Whether a stored timestamp converts cleanly (present and valid). -/
def hasValidDate : DateVal → Bool
  | .valid _ => true
  | _ => false

/-- Helper: the growth reader's output does not depend on the ambient
clock once every row's created_at converts cleanly. -/
theorem growthLoop_clock_independent (c1 c2 : Clock)
    (rows : List GrowthZoneRow)
    (h : rows.all (fun r => hasValidDate r.created_at) = true) :
    growthLoop c1 rows = growthLoop c2 rows := by
  induction rows with
  | nil => rfl
  | cons row rest ih =>
    simp only [List.all_cons, Bool.and_eq_true] at h
    obtain ⟨hd, hrest⟩ := h
    have ihr := ih hrest
    obtain ⟨iso, hiso⟩ : ∃ iso, row.created_at = .valid iso := by
      cases hc : row.created_at <;> simp [hc, hasValidDate] at hd ⊢
    cases hgg : safeParseGeometry row.geojson with
    | none => simp [growthLoop, hgg, ihr]
    | some g =>
      simp [growthLoop, hgg, ihr, growthProps, hiso, safeISOString]

/-- Helper: digital-risk analogue of growthLoop_clock_independent. -/
theorem digitalRiskLoop_clock_independent (c1 c2 : Clock)
    (rows : List DigitalRiskRow)
    (h : rows.all (fun r => hasValidDate r.created_at) = true) :
    digitalRiskLoop c1 rows = digitalRiskLoop c2 rows := by
  induction rows with
  | nil => rfl
  | cons row rest ih =>
    simp only [List.all_cons, Bool.and_eq_true] at h
    obtain ⟨hd, hrest⟩ := h
    have ihr := ih hrest
    obtain ⟨iso, hiso⟩ : ∃ iso, row.created_at = .valid iso := by
      cases hc : row.created_at <;> simp [hc, hasValidDate] at hd ⊢
    cases hgg : safeParseGeometry row.geojson with
    | none => simp [digitalRiskLoop, hgg, ihr]
    | some g =>
      simp [digitalRiskLoop, hgg, ihr, digitalRiskProps, hiso, safeISOString]

/-- Helper: migration analogue; the year default additionally requires a
present year column. -/
theorem migrationLoop_clock_independent (c1 c2 : Clock)
    (rows : List MigrationFlowRow)
    (h : rows.all
      (fun r => hasValidDate r.created_at && r.year.isSome) = true) :
    migrationLoop c1 rows = migrationLoop c2 rows := by
  induction rows with
  | nil => rfl
  | cons row rest ih =>
    simp only [List.all_cons, Bool.and_eq_true] at h
    obtain ⟨⟨hd, hy⟩, hrest⟩ := h
    have ihr := ih hrest
    obtain ⟨iso, hiso⟩ : ∃ iso, row.created_at = .valid iso := by
      cases hc : row.created_at <;> simp [hc, hasValidDate] at hd ⊢
    obtain ⟨y, hyy⟩ := Option.isSome_iff_exists.mp hy
    cases hgg : safeParseGeometry row.geojson with
    | none => simp [migrationLoop, hgg, ihr]
    | some g =>
      simp [migrationLoop, hgg, ihr, migrationProps, hiso, hyy, safeISOString]

/-- C9 amended: when every row's created_at is a present, valid
timestamp (and, for migration, the year column is present), the three
resource readers are independent of the ambient clock, so two calls on
the same store state with no intervening mutation return identical
collections, created_at strings included; rows violating this get the
current time (or year) substituted, which may differ between calls. -/
theorem C9_readers_clock_independent (c1 c2 : Clock)
    (mrows : List MigrationFlowRow) (grows : List GrowthZoneRow)
    (drows : List DigitalRiskRow)
    (hm : mrows.all
      (fun r => hasValidDate r.created_at && r.year.isSome) = true)
    (hg : grows.all (fun r => hasValidDate r.created_at) = true)
    (hd : drows.all (fun r => hasValidDate r.created_at) = true) :
    getMigrationFlows c1 mrows = getMigrationFlows c2 mrows ∧
    getGrowthZones c1 grows = getGrowthZones c2 grows ∧
    getDigitalRiskZones c1 drows = getDigitalRiskZones c2 drows := by
  refine ⟨?_, ?_, ?_⟩
  · unfold getMigrationFlows
    rw [migrationLoop_clock_independent c1 c2 mrows hm]
  · unfold getGrowthZones
    rw [growthLoop_clock_independent c1 c2 grows hg]
  · unfold getDigitalRiskZones
    rw [digitalRiskLoop_clock_independent c1 c2 drows hd]

def mRowC9 : MigrationFlowRow :=
  { id := some "m1", origin_region := some "Pune"
    destination_region := some "Mumbai", migration_score := some 1
    year := some 2024, created_at := DateVal.missing
    geojson :=
      some "\x7b\"type\":\"LineString\",\"coordinates\":[[0,0],[1,1]]\x7d" }

def clockC9a : Clock :=
  { nowIso := "2026-01-01T00:00:00.000Z", currentYear := 2026 }

def clockC9b : Clock :=
  { nowIso := "2026-01-02T00:00:00.000Z", currentYear := 2026 }

/-- C9 counterexample: a store state with one migration row whose
created_at is null makes two calls at different times return different
collections, refuting the claim for every fixed store state. -/
theorem C9_counterexample :
    getMigrationFlows clockC9a [mRowC9] ≠ getMigrationFlows clockC9b [mRowC9] := by
  intro h
  have h2 := congrArg
    (fun fc => fc.features.map (fun f => f.properties.created_at)) h
  exact absurd h2 (by decide)

def mRowC9ok : MigrationFlowRow :=
  { mRowC9 with created_at := DateVal.valid "2024-03-01T00:00:00.000Z" }

def growRowC9 : GrowthZoneRow :=
  { id := some "g1", region_name := some "Pune Rural", growth_score := some 1
    classification := some "peri-urban"
    created_at := DateVal.valid "2024-03-01T00:00:00.000Z"
    geojson := some geoPolygonText }

def driskRowC9 : DigitalRiskRow :=
  { id := some "d1", region_name := some "Nashik", risk_score := some 1
    risk_level := some "high", factors := some [("connectivity", 1)]
    created_at := DateVal.valid "2024-03-01T00:00:00.000Z"
    geojson := some geoPolygonText }

/-- C9 witness: the amended theorem applied at two distinct clocks over
concrete valid rows. -/
theorem C9_witness :
    getMigrationFlows clockC9a [mRowC9ok] =
      getMigrationFlows clockC9b [mRowC9ok] ∧
    getGrowthZones clockC9a [growRowC9] = getGrowthZones clockC9b [growRowC9] ∧
    getDigitalRiskZones clockC9a [driskRowC9] =
      getDigitalRiskZones clockC9b [driskRowC9] :=
  C9_readers_clock_independent clockC9a clockC9b [mRowC9ok] [growRowC9]
    [driskRowC9] (by decide) (by decide) (by decide)

/-- Whether a geometry text column satisfies the hypotheses of the
refinement claim: it parses as JSON to a truthy value of object type
whose type and coordinates fields are present and truthy. -/
def geomOkB (o : Option String) : Bool :=
  match o with
  | some s =>
    match jsonParse s with
    | some j =>
      jsTruthy j && jsTypeofObject j && truthyOpt (getField j "type") &&
        truthyOpt (getField j "coordinates")
    | none => false
  | none => false

/-- Whether a growth row satisfies all hypotheses of the refinement
claim: well-formed geometry, non-null property columns, valid date. -/
def growthRowOk (row : GrowthZoneRow) : Bool :=
  geomOkB row.geojson && row.id.isSome && row.region_name.isSome &&
    row.growth_score.isSome && row.classification.isSome &&
    hasValidDate row.created_at

/-- Helper: a geometry column accepted by geomOkB sanitizes to exactly
the value the naive JSON.parse would produce. -/
theorem geomOkB_safeParse (o : Option String) (h : geomOkB o = true) :
    ∃ s j, o = some s ∧ jsonParse s = some j ∧
      safeParseGeometry o = some j := by
  cases o with
  | none => simp [geomOkB] at h
  | some s =>
    simp only [geomOkB] at h
    cases hp : jsonParse s with
    | none => rw [hp] at h; cases h
    | some j =>
      simp only [hp, Bool.and_eq_true] at h
      obtain ⟨⟨⟨h1, h2⟩, h3⟩, h4⟩ := h
      have hs : s ≠ "" := by
        intro he
        subst he
        rw [show jsonParse "" = none from rfl] at hp
        cases hp
      refine ⟨s, j, rfl, hp, ?_⟩
      simp only [safeParseGeometry, if_neg hs, hp]
      rw [if_neg (by simp [h1, h2]), if_neg (by simp [h3, h4])]

/-- Helper: on a row satisfying the refinement hypotheses, the naive
per-row construction yields exactly the defensive per-row feature. -/
theorem growthRowOk_feature (clock : Clock) (row : GrowthZoneRow)
    (h : growthRowOk row = true) :
    ∃ g, safeParseGeometry row.geojson = some g ∧
      growthFeatureNaive row =
        .ok { geometry := g, properties := growthProps clock row } := by
  unfold growthRowOk at h
  simp only [Bool.and_eq_true] at h
  obtain ⟨⟨⟨⟨⟨hgeom, hid⟩, hrn⟩, hgs⟩, hc⟩, hdt⟩ := h
  obtain ⟨s, g, ho, hp, hsafe⟩ := geomOkB_safeParse row.geojson hgeom
  obtain ⟨iso, hiso⟩ : ∃ iso, row.created_at = .valid iso := by
    cases hcc : row.created_at <;> simp [hcc, hasValidDate] at hdt ⊢
  obtain ⟨a, ha⟩ := Option.isSome_iff_exists.mp hid
  obtain ⟨b, hb⟩ := Option.isSome_iff_exists.mp hrn
  obtain ⟨c, hcs⟩ := Option.isSome_iff_exists.mp hgs
  obtain ⟨d, hdc⟩ := Option.isSome_iff_exists.mp hc
  refine ⟨g, hsafe, ?_⟩
  simp [growthFeatureNaive, ho, hp, hiso, growthProps, safeISOString,
    ha, hb, hcs, hdc]

/-- Helper: the naive map over rows satisfying the refinement hypotheses
produces the defensive loop's feature list with no throw. -/
theorem naiveMap_eq_growthLoop (clock : Clock) (rows : List GrowthZoneRow)
    (h : rows.all growthRowOk = true) :
    mapOrThrow growthFeatureNaive rows = .ok (growthLoop clock rows).1 := by
  induction rows with
  | nil => rfl
  | cons row rest ih =>
    simp only [List.all_cons, Bool.and_eq_true] at h
    obtain ⟨hrow, hrest⟩ := h
    have ihr := ih hrest
    obtain ⟨g, hsafe, hnaive⟩ := growthRowOk_feature clock row hrow
    simp [mapOrThrow, hnaive, ihr, growthLoop, hsafe]

/-- C10: on store results where every row's geojson parses to a truthy
object-typed JSON value with truthy type and coordinates fields, all
property columns are non-null and created_at is a valid date, the naive
GrowthService.getGrowthZones implementation returns (without throwing)
exactly the collection the defensive implementation assembles. -/
theorem C10_naive_growth_refines_defensive (clock : Clock)
    (rows : List GrowthZoneRow) (h : rows.all growthRowOk = true) :
    getGrowthZonesNaive rows = .ok (getGrowthZones clock rows) := by
  unfold getGrowthZonesNaive
  rw [naiveMap_eq_growthLoop clock rows h]
  have hf := getGrowthZones_features clock rows
  cases hgz : getGrowthZones clock rows with
  | mk feats =>
    rw [hgz] at hf
    simp only at hf
    rw [hf]

/-- C10 witness: the refinement applied to a concrete well-formed row. -/
theorem C10_witness :
    getGrowthZonesNaive [growRowC9] = .ok (getGrowthZones clockW [growRowC9]) :=
  C10_naive_growth_refines_defensive clockW [growRowC9] (by decide)
